import Mathlib

/-!
Verification of the events CRUD route module
(`06-database-integration/routes/events.py`) of the
`building-api-with-fastapi` repository.

The route handlers are shallowly embedded as pure functions over an
explicit store: the Event table is a list of rows, the ORM session's
`get` / `add` / `delete` / `commit` calls become explicit list
operations, and `raise HTTPException` becomes an `Except.error` result.
Each handler returns its response together with the store after the
call (the store after `commit`, or the unchanged store when the handler
raises before touching the session).
-/

namespace FastAPIEvents

/-- `fastapi.HTTPException`, restricted to the two fields the route
module sets (`status_code`, `detail`). -/
structure HTTPException where
  status_code : Nat
  detail : String
deriving DecidableEq, Repr

/-- Modelled from the spec: the `Event` table row schema declared in
`models/events.py`, a file the repository references from the route
module but whose source is not available; the spec describes it only as
a schema class with an integer primary key `id` and payload fields.
The concrete non-key fields are the ones the companion `EventUpdate`
payload below can overwrite. -/
structure Event where
  id : Nat
  title : String
  image : String
  description : String
  tags : List String
  location : String
deriving DecidableEq, Repr

/-- Modelled from the spec: the `EventUpdate` payload schema from
`models/events.py` (source not available), described by the spec as "a
payload of optional fields". A field holds `none` when the client left
it unset, so that `model_dump(exclude_unset=True)` drops it. -/
structure EventUpdate where
  title : Option String
  image : Option String
  description : Option String
  tags : Option (List String)
  location : Option String
deriving DecidableEq, Repr

/-- The Event table: the rows currently in the store, in insertion
order. -/
abbrev Store := List Event

/-- `session.get(Event, id)`: look up a row by primary key, `None` if
absent. In the list model this is the first row whose `id` matches. -/
def sessionGet (s : Store) (id : Nat) : Option Event :=
  s.find? (fun e => e.id = id)

/-- The loop `for key, value in event_data.items(): setattr(event, key, value)`
over `event_data = new_data.model_dump(exclude_unset=True)`: every field
the payload explicitly sets overwrites the row's field, every unset
field is left alone. -/
def applyUpdate (e : Event) (u : EventUpdate) : Event :=
  { e with
    title := u.title.getD e.title
    image := u.image.getD e.image
    description := u.description.getD e.description
    tags := u.tags.getD e.tags
    location := u.location.getD e.location }

/-- Persisting an in-place mutation of the row the session returned:
replace the first row whose primary key is `id` by `e'`, leaving every
other row where it was. -/
def replaceFirst (s : Store) (id : Nat) (e' : Event) : Store :=
  match s with
  | [] => []
  | x :: xs => if x.id = id then e' :: xs else x :: replaceFirst xs id e'

/-- `session.delete(event)` on the row `session.get` returned: remove
the first row whose primary key is `id`. -/
def removeFirst (s : Store) (id : Nat) : Store :=
  match s with
  | [] => []
  | x :: xs => if x.id = id then xs else x :: removeFirst xs id

/-- The 404 exception every event route raises for a missing row. -/
def notFound : HTTPException :=
  ⟨404, "Event with supplied ID does not exist"⟩

/-- `GET /`: `retrieve_all_events` — select every row of the Event
table and return it; the store is untouched. -/
def retrieve_all_events (s : Store) : List Event × Store :=
  (s, s)

/-- `GET /\x7bid\x7d`: `retrieve_event` — fetch one row by primary key,
404 if absent. -/
def retrieve_event (id : Nat) (s : Store) : Except HTTPException Event × Store :=
  match sessionGet s id with
  | none => (Except.error notFound, s)
  | some e => (Except.ok e, s)

/-- `POST /new`: `create_event` — add the posted row to the session,
commit, and return the fixed success message. -/
def create_event (new_event : Event) (s : Store) : String × Store :=
  ("Event created successfully", s ++ [new_event])

/-- `PUT /edit/\x7bid\x7d`: `update_event` — fetch the row by primary
key (404 if absent), overwrite the fields the payload explicitly sets,
commit, and return the updated row. -/
def update_event (id : Nat) (new_data : EventUpdate) (s : Store) :
    Except HTTPException Event × Store :=
  match sessionGet s id with
  | none => (Except.error notFound, s)
  | some e =>
    let e' := applyUpdate e new_data
    (Except.ok e', replaceFirst s id e')

/-- `DELETE /delete/\x7bid\x7d`: `delete_event` — fetch the row by
primary key (404 if absent), delete it, commit, and return a success
message. -/
def delete_event (id : Nat) (s : Store) : Except HTTPException String × Store :=
  match sessionGet s id with
  | none => (Except.error notFound, s)
  | some _ => (Except.ok "Event deleted successfully", removeFirst s id)

/-- `DELETE /`: `delete_all_events` — select every row; if there are
none, report "No events found to delete" without touching the store,
otherwise delete each selected row, commit, and report success. -/
def delete_all_events (s : Store) : String × Store :=
  if s.isEmpty then ("No events found to delete", s)
  else ("All events deleted successfully", [])

/-- The payload in which no optional field is explicitly set. -/
def emptyUpdate : EventUpdate :=
  ⟨none, none, none, none, none⟩

/-! Sample rows used by witness statements. -/

/-- A sample row with primary key 1. -/
def ev1 : Event := ⟨1, "Launch", "img1", "first", ["a"], "Lahore"⟩

/-- A sample row with primary key 2. -/
def ev2 : Event := ⟨2, "Meetup", "img2", "second", ["b"], "Karachi"⟩

/-- A payload that sets only the title. -/
def titleUpdate : EventUpdate := ⟨some "New title", none, none, none, none⟩

/-! Helper lemmas about the session primitives. -/

/-- `session.get` misses exactly when no row carries the key. -/
lemma sessionGet_eq_none_iff (s : Store) (id : Nat) :
    sessionGet s id = none ↔ ∀ e ∈ s, e.id ≠ id := by
  simp [sessionGet, List.find?_eq_none]

/-- A row `session.get` returns carries the requested key. -/
lemma sessionGet_id (s : Store) (id : Nat) (e : Event)
    (h : sessionGet s id = some e) : e.id = id := by
  have := List.find?_some h
  simpa using this

/-- A row `session.get` returns is in the table. -/
lemma sessionGet_mem (s : Store) (id : Nat) (e : Event)
    (h : sessionGet s id = some e) : e ∈ s :=
  List.mem_of_find?_eq_some h

/-- Rows at positions whose key differs survive `replaceFirst`
unchanged, in place. -/
lemma replaceFirst_getElem?_ne (s : Store) (id : Nat) (e' : Event) :
    ∀ (i : Nat) (x : Event), s[i]? = some x → x.id ≠ id →
      (replaceFirst s id e')[i]? = some x := by
  induction s with
  | nil => intro i x hx _; simp at hx
  | cons y ys ih =>
    intro i x hx hne
    by_cases hy : y.id = id
    · simp only [replaceFirst, if_pos hy]
      cases i with
      | zero =>
        simp at hx
        exact absurd (hx ▸ hy) hne
      | succ j => simpa using (by simpa using hx : ys[j]? = some x)
    · simp only [replaceFirst, if_neg hy]
      cases i with
      | zero => simpa using hx
      | succ j =>
        have := ih j x (by simpa using hx) hne
        simpa using this

/-- Replacing the row `session.get` found by itself is a no-op. -/
lemma replaceFirst_self (s : Store) (id : Nat) (e : Event)
    (h : sessionGet s id = some e) : replaceFirst s id e = s := by
  induction s with
  | nil => simp [sessionGet] at h
  | cons y ys ih =>
    by_cases hy : y.id = id
    · have : e = y := by
        simp [sessionGet, List.find?_cons, hy] at h
        exact h.symm
      simp [replaceFirst, hy, this]
    · have h' : sessionGet ys id = some e := by
        simpa [sessionGet, List.find?_cons, hy] using h
      simp [replaceFirst, hy, ih h']

/-- With distinct primary keys, deleting the fetched row removes
precisely the rows keyed `id`. -/
lemma removeFirst_eq_filter (s : Store) (id : Nat)
    (h : (s.map Event.id).Nodup) :
    removeFirst s id = s.filter (fun x => x.id != id) := by
  induction s with
  | nil => rfl
  | cons y ys ih =>
    have hnd : (∀ x ∈ ys, ¬ x.id = y.id) ∧ (ys.map Event.id).Nodup := by
      simpa [List.nodup_cons] using h
    by_cases hy : y.id = id
    · have hrest : ys.filter (fun x => x.id != id) = ys := by
        apply List.filter_eq_self.mpr
        intro x hx
        simpa [hy] using fun hxx => hnd.1 x hx (by rw [hxx, hy])
      simp [removeFirst, hy, List.filter_cons, hrest]
    · simp [removeFirst, hy, List.filter_cons, ih hnd.2]

/-- No row of the filtered table carries the deleted key. -/
lemma sessionGet_filter_ne (s : Store) (id : Nat) :
    sessionGet (s.filter (fun x => x.id != id)) id = none := by
  apply (sessionGet_eq_none_iff _ _).mpr
  intro e he
  have := (List.mem_filter.mp he).2
  simpa using this

/-! Claim theorems. -/

/-- C5: for every store state, `retrieve_all_events` returns exactly
the rows of the Event table — every row, no pagination or truncation —
never fails, leaves the store untouched, and returns the empty list
when the table is empty. -/
theorem retrieve_all_events_returns_all (s : Store) :
    retrieve_all_events s = (s, s) ∧ retrieve_all_events ([] : Store) = ([], []) :=
  ⟨rfl, rfl⟩

/-- C6: for every input event and store, `create_event` appends that
single row to the Event table, commits, and returns the fixed message
"Event created successfully"; the message is the same for every input. -/
theorem create_event_inserts_and_fixed_message (new_event : Event) (s : Store) :
    create_event new_event s = ("Event created successfully", s ++ [new_event]) ∧
    ∀ (e2 : Event) (s2 : Store),
      (create_event new_event s).1 = (create_event e2 s2).1 :=
  ⟨rfl, fun _ _ => rfl⟩

/-- C2: `delete_all_events` on an empty Event table returns
"No events found to delete" and leaves the store unchanged; on a
non-empty table it removes every row and returns
"All events deleted successfully". -/
theorem delete_all_events_messages (s : Store) :
    (s = [] → delete_all_events s = ("No events found to delete", s)) ∧
    (s ≠ [] → delete_all_events s = ("All events deleted successfully", [])) := by
  constructor
  · intro h; subst h; rfl
  · intro h
    simp [delete_all_events, List.isEmpty_iff, h]

/-- Witness for C2 at the empty store and at a one-row store. -/
theorem delete_all_events_messages_witness :
    delete_all_events [] = ("No events found to delete", []) ∧
    delete_all_events [ev1] = ("All events deleted successfully", []) :=
  ⟨(delete_all_events_messages []).1 rfl,
   (delete_all_events_messages [ev1]).2 (by simp)⟩

/-- C10: `delete_all_events` is idempotent on the store: after one call
the Event table is empty, and a second call leaves it unchanged while
returning "No events found to delete". -/
theorem delete_all_events_idempotent (s : Store) :
    (delete_all_events s).2 = [] ∧
    delete_all_events (delete_all_events s).2 =
      ("No events found to delete", (delete_all_events s).2) := by
  cases s with
  | nil => exact ⟨rfl, rfl⟩
  | cons y ys => exact ⟨rfl, rfl⟩

/-- C3: `retrieve_event` returns the row whose primary key equals `id`
when one exists (leaving the store untouched), and raises HTTP 404 with
detail "Event with supplied ID does not exist" exactly when no row has
that key. -/
theorem retrieve_event_found_or_404 (s : Store) (id : Nat) :
    ((retrieve_event id s).1 =
        Except.error ⟨404, "Event with supplied ID does not exist"⟩ ↔
      ∀ e ∈ s, e.id ≠ id) ∧
    (∀ e : Event, sessionGet s id = some e →
      retrieve_event id s = (Except.ok e, s) ∧ e ∈ s ∧ e.id = id) := by
  constructor
  · constructor
    · intro h
      rw [← sessionGet_eq_none_iff]
      cases hg : sessionGet s id with
      | none => rfl
      | some e => simp [retrieve_event, hg] at h
    · intro h
      have hg : sessionGet s id = none := (sessionGet_eq_none_iff s id).mpr h
      simp [retrieve_event, hg, notFound]
  · intro e hg
    exact ⟨by simp [retrieve_event, hg], sessionGet_mem s id e hg,
      sessionGet_id s id e hg⟩

/-- Witness for C3: on the store `[ev1, ev2]`, key 1 is found and
returned. -/
theorem retrieve_event_found_or_404_witness :
    retrieve_event 1 [ev1, ev2] = (Except.ok ev1, [ev1, ev2]) ∧
    ev1 ∈ [ev1, ev2] ∧ ev1.id = 1 :=
  (retrieve_event_found_or_404 [ev1, ev2] 1).2 ev1 (by decide)

/-- C1: `update_event` raises HTTP 404 exactly when no row carries the
key; when the row exists it overwrites exactly the explicitly-set
payload fields (unset fields are not applied, the primary key is kept),
commits the replaced row, and returns the updated row. -/
theorem update_event_partial_update (s : Store) (id : Nat) (u : EventUpdate) :
    ((update_event id u s).1 =
        Except.error ⟨404, "Event with supplied ID does not exist"⟩ ↔
      ∀ e ∈ s, e.id ≠ id) ∧
    (∀ e : Event, sessionGet s id = some e →
      update_event id u s =
        (Except.ok (applyUpdate e u), replaceFirst s id (applyUpdate e u)) ∧
      (applyUpdate e u).id = e.id ∧
      (u.title = none → (applyUpdate e u).title = e.title) ∧
      (∀ v, u.title = some v → (applyUpdate e u).title = v) ∧
      (u.image = none → (applyUpdate e u).image = e.image) ∧
      (∀ v, u.image = some v → (applyUpdate e u).image = v) ∧
      (u.description = none → (applyUpdate e u).description = e.description) ∧
      (∀ v, u.description = some v → (applyUpdate e u).description = v) ∧
      (u.tags = none → (applyUpdate e u).tags = e.tags) ∧
      (∀ v, u.tags = some v → (applyUpdate e u).tags = v) ∧
      (u.location = none → (applyUpdate e u).location = e.location) ∧
      (∀ v, u.location = some v → (applyUpdate e u).location = v)) := by
  constructor
  · constructor
    · intro h
      rw [← sessionGet_eq_none_iff]
      cases hg : sessionGet s id with
      | none => rfl
      | some e => simp [update_event, hg] at h
    · intro h
      have hg : sessionGet s id = none := (sessionGet_eq_none_iff s id).mpr h
      simp [update_event, hg, notFound]
  · intro e hg
    refine ⟨by simp [update_event, hg], rfl, ?_, ?_, ?_, ?_, ?_, ?_, ?_, ?_, ?_, ?_⟩
    all_goals first
      | (intro h; simp [applyUpdate, h])
      | (intro v h; simp [applyUpdate, h])

/-- Witness for C1: updating key 1 of `[ev1, ev2]` with a
title-only payload replaces the title and keeps every other field. -/
theorem update_event_partial_update_witness :
    update_event 1 titleUpdate [ev1, ev2] =
      (Except.ok (applyUpdate ev1 titleUpdate),
        replaceFirst [ev1, ev2] 1 (applyUpdate ev1 titleUpdate)) ∧
    (applyUpdate ev1 titleUpdate).id = ev1.id ∧
    (titleUpdate.title = none →
      (applyUpdate ev1 titleUpdate).title = ev1.title) ∧
    (∀ v, titleUpdate.title = some v →
      (applyUpdate ev1 titleUpdate).title = v) ∧
    (titleUpdate.image = none →
      (applyUpdate ev1 titleUpdate).image = ev1.image) ∧
    (∀ v, titleUpdate.image = some v →
      (applyUpdate ev1 titleUpdate).image = v) ∧
    (titleUpdate.description = none →
      (applyUpdate ev1 titleUpdate).description = ev1.description) ∧
    (∀ v, titleUpdate.description = some v →
      (applyUpdate ev1 titleUpdate).description = v) ∧
    (titleUpdate.tags = none →
      (applyUpdate ev1 titleUpdate).tags = ev1.tags) ∧
    (∀ v, titleUpdate.tags = some v →
      (applyUpdate ev1 titleUpdate).tags = v) ∧
    (titleUpdate.location = none →
      (applyUpdate ev1 titleUpdate).location = ev1.location) ∧
    (∀ v, titleUpdate.location = some v →
      (applyUpdate ev1 titleUpdate).location = v) :=
  (update_event_partial_update [ev1, ev2] 1 titleUpdate).2 ev1 (by decide)

/-- C7: `update_event` modifies at most the row keyed `id`: every row
at a position whose key differs is unchanged in place (also when the
handler raises 404), and within the updated row every field the payload
leaves unset keeps its previous value. -/
theorem update_event_frame (s : Store) (id : Nat) (u : EventUpdate) :
    (∀ (i : Nat) (x : Event), s[i]? = some x → x.id ≠ id →
      ((update_event id u s).2)[i]? = some x) ∧
    (∀ e : Event, sessionGet s id = some e →
      (u.title = none → (applyUpdate e u).title = e.title) ∧
      (u.image = none → (applyUpdate e u).image = e.image) ∧
      (u.description = none → (applyUpdate e u).description = e.description) ∧
      (u.tags = none → (applyUpdate e u).tags = e.tags) ∧
      (u.location = none → (applyUpdate e u).location = e.location) ∧
      (applyUpdate e u).id = e.id) := by
  constructor
  · intro i x hx hne
    cases hg : sessionGet s id with
    | none => simpa [update_event, hg] using hx
    | some e =>
      have := replaceFirst_getElem?_ne s id (applyUpdate e u) i x hx hne
      simpa [update_event, hg] using this
  · intro e _
    refine ⟨?_, ?_, ?_, ?_, ?_, rfl⟩
    all_goals intro h; simp [applyUpdate, h]

/-- Witness for C7: on `[ev1, ev2]`, updating key 1 leaves the row at
position 1 (key 2) unchanged, and the unset fields of the updated row
keep their values. -/
theorem update_event_frame_witness :
    (update_event 1 titleUpdate [ev1, ev2]).2[1]? = some ev2 ∧
    ((titleUpdate.image = none →
        (applyUpdate ev1 titleUpdate).image = ev1.image) ∧
      (applyUpdate ev1 titleUpdate).id = ev1.id) :=
  ⟨(update_event_frame [ev1, ev2] 1 titleUpdate).1 1 ev2 (by decide) (by decide),
   ⟨((update_event_frame [ev1, ev2] 1 titleUpdate).2 ev1 (by decide)).2.1,
    ((update_event_frame [ev1, ev2] 1 titleUpdate).2 ev1 (by decide)).2.2.2.2.2⟩⟩

/-- C9: for an existing key, `update_event` with a payload in which no
optional field is set is an identity on the store: the unchanged row is
returned and the Event table is exactly as before. -/
theorem update_event_empty_payload_identity (s : Store) (id : Nat) (e : Event)
    (h : sessionGet s id = some e) :
    update_event id emptyUpdate s = (Except.ok e, s) := by
  have happ : applyUpdate e emptyUpdate = e := rfl
  simp [update_event, h, happ, replaceFirst_self s id e h]

/-- Witness for C9: the empty payload on key 2 of `[ev1, ev2]` returns
`ev2` and leaves the store unchanged. -/
theorem update_event_empty_payload_identity_witness :
    update_event 2 emptyUpdate [ev1, ev2] = (Except.ok ev2, [ev1, ev2]) :=
  update_event_empty_payload_identity [ev1, ev2] 2 ev2 (by decide)

/-- C4: with distinct primary keys, `delete_event` raises HTTP 404
exactly when no row carries the key; when the row exists it removes
precisely that row (a subsequent lookup misses, every other row
survives), commits, and returns "Event deleted successfully". -/
theorem delete_event_removes_row (s : Store) (id : Nat)
    (hnd : (s.map Event.id).Nodup) :
    ((delete_event id s).1 =
        Except.error ⟨404, "Event with supplied ID does not exist"⟩ ↔
      ∀ e ∈ s, e.id ≠ id) ∧
    (∀ e : Event, sessionGet s id = some e →
      delete_event id s =
        (Except.ok "Event deleted successfully",
          s.filter (fun x => x.id != id)) ∧
      sessionGet (delete_event id s).2 id = none) := by
  constructor
  · constructor
    · intro h
      rw [← sessionGet_eq_none_iff]
      cases hg : sessionGet s id with
      | none => rfl
      | some e => simp [delete_event, hg] at h
    · intro h
      have hg : sessionGet s id = none := (sessionGet_eq_none_iff s id).mpr h
      simp [delete_event, hg, notFound]
  · intro e hg
    have hrm := removeFirst_eq_filter s id hnd
    constructor
    · simp [delete_event, hg, hrm]
    · simp [delete_event, hg, hrm, sessionGet_filter_ne]

/-- Witness for C4: deleting key 2 from `[ev1, ev2]` keeps only `ev1`
and a subsequent lookup of key 2 misses. -/
theorem delete_event_removes_row_witness :
    delete_event 2 [ev1, ev2] =
      (Except.ok "Event deleted successfully",
        List.filter (fun x => x.id != 2) [ev1, ev2]) ∧
    sessionGet (delete_event 2 [ev1, ev2]).2 2 = none :=
  (delete_event_removes_row [ev1, ev2] 2 (by decide)).2 ev2 (by decide)

/-- C8: the only failure `retrieve_event`, `update_event` and
`delete_event` produce is the 404 `notFound` exception for a missing
row, and whenever a handler errors the Event table is exactly as it was
before the call. -/
theorem handlers_404_only_state_preserved (s : Store) (id : Nat) (u : EventUpdate) :
    (∀ ex : HTTPException, (retrieve_event id s).1 = Except.error ex →
      ex = notFound ∧ ex.status_code = 404 ∧ (retrieve_event id s).2 = s) ∧
    (∀ ex : HTTPException, (update_event id u s).1 = Except.error ex →
      ex = notFound ∧ ex.status_code = 404 ∧ (update_event id u s).2 = s) ∧
    (∀ ex : HTTPException, (delete_event id s).1 = Except.error ex →
      ex = notFound ∧ ex.status_code = 404 ∧ (delete_event id s).2 = s) := by
  refine ⟨?_, ?_, ?_⟩
  all_goals
    intro ex hex
    cases hg : sessionGet s id with
    | none =>
      simp [retrieve_event, update_event, delete_event, hg] at hex ⊢
      simp [← hex, notFound]
    | some e =>
      simp [retrieve_event, update_event, delete_event, hg] at hex

/-- Witness for C8: looking up the absent key 5 in `[ev1]` yields the
404 `notFound` exception with the store intact, for each handler. -/
theorem handlers_404_only_state_preserved_witness :
    (notFound = notFound ∧ notFound.status_code = 404 ∧
      (retrieve_event 5 [ev1]).2 = [ev1]) ∧
    (notFound = notFound ∧ notFound.status_code = 404 ∧
      (update_event 5 emptyUpdate [ev1]).2 = [ev1]) ∧
    (notFound = notFound ∧ notFound.status_code = 404 ∧
      (delete_event 5 [ev1]).2 = [ev1]) :=
  ⟨(handlers_404_only_state_preserved [ev1] 5 emptyUpdate).1 notFound rfl,
   (handlers_404_only_state_preserved [ev1] 5 emptyUpdate).2.1 notFound rfl,
   (handlers_404_only_state_preserved [ev1] 5 emptyUpdate).2.2 notFound rfl⟩

end FastAPIEvents
